import Mathlib

/-!
Shallow embedding of the BTC Markets exchange client (`btcmarkets.go`).

The client talks to the exchange through external collaborators (HTTP
transport, JSON codec, base64 codec, HMAC, currency conversion, aggregation
sink).  Those collaborators are out of scope and assumed correct; they are
passed to the embedded operations as explicit function parameters, so every
theorem below is quantified over their behaviour.  Machine `int64` values are
modelled as `Int` (or `Nat` for clock readings, which are non-negative in the
representable range).  Go's fallible calls are modelled with `Except`.
-/

namespace BTCM

/-! ## Constants (`btcmarkets.go` lines 11-21) -/

def BTCMARKETS_API_URL : String := "https://api.btcmarkets.net"

def BTCMARKETS_API_VERSION : String := "0"

def BTCMARKETS_ACCOUNT_BALANCE : String := "/account/balance"

def BTCMARKETS_ORDER_CREATE : String := "/order/create"

def BTCMARKETS_ORDER_CANCEL : String := "/order/cancel"

def BTCMARKETS_ORDER_HISTORY : String := "/order/history"

def BTCMARKETS_ORDER_OPEN : String := "/order/open"

def BTCMARKETS_ORDER_TRADE_HISTORY : String := "/order/trade/history"

def BTCMARKETS_ORDER_DETAIL : String := "/order/detail"

/-! ## Data model (`btcmarkets.go` lines 23-84) -/

/-- Ticker snapshot (`BTCMarketsTicker`, lines 38-45). -/
structure BTCMarketsTicker where
  BestBID : Float
  BestAsk : Float
  LastPrice : Float
  Currency : String
  Instrument : String
  Timestamp : Int

/-- Client state (`BTCMarkets`, lines 23-36).  The Go `map[string]BTCMarketsTicker`
is modelled as an association list with Go-map assignment semantics
(`mapInsert` below); `time.Duration` is modelled as `Nat`. -/
structure BTCMarkets where
  Name : String
  Enabled : Bool
  Verbose : Bool
  Websocket : Bool
  RESTPollingDelay : Nat
  Fee : Float
  Ticker : List (String × BTCMarketsTicker)
  AuthenticatedAPISupport : Bool
  APIKey : String
  APISecret : String
  BaseCurrencies : List String
  AvailablePairs : List String
  EnabledPairs : List String

/-- External collaborators used by configuration and signing: base64 codec and
the keyed hash (`Base64Decode`, `Base64Encode`, `GetHMAC(HASH_SHA512, msg, key)`).
They live outside `btcmarkets.go` and are assumed correct, so they are abstract
here.  `getHMAC` takes the message first and the key second, as in the source
call `GetHMAC(HASH_SHA512, []byte(request), []byte(b.APISecret))`. -/
structure Collab where
  base64Decode : String → Except String String
  base64Encode : String → String
  getHMAC : String → String → String

/-! ## Go-map and Go-slicing helpers -/

/-- Go map assignment `m[k] = v`: overwrite the entry for `k` if present,
otherwise add one. -/
def mapInsert {V : Type} (m : List (String × V)) (k : String) (v : V) :
    List (String × V) :=
  match m with
  | [] => [(k, v)]
  | (k1, v1) :: rest =>
    if k1 = k then (k, v) :: rest else (k1, v1) :: mapInsert rest k v

/-- Go map read `m[k]` (presence view). -/
def mapLookup {V : Type} (m : List (String × V)) (k : String) : Option V :=
  match m with
  | [] => none
  | (k1, v1) :: rest => if k1 = k then some v1 else mapLookup rest k

/-- Go string slicing `s[i:j]`: defined when `i ≤ j ≤ len(s)`, otherwise the
program faults (index out of range), modelled as `none`.  The symbols sliced by
this client are ASCII, where Go's byte indexing and character indexing agree. -/
def goSlice (s : String) (i j : Nat) : Option String :=
  if i ≤ j ∧ j ≤ s.data.length then
    some (String.mk ((s.data.drop i).take (j - i)))
  else none

/-! ## Nonce construction (`btcmarkets.go` line 352) -/

/-- Decimal rendering of a natural number: digit characters accumulated most
significant first.  The first argument is fuel (any bound on the number of
divisions, `n` itself suffices); the recursion stops once the value is `0`. -/
def toDecimalAux : Nat → Nat → List Char
  | 0, _ => []
  | _ + 1, 0 => []
  | fuel + 1, n + 1 =>
    toDecimalAux fuel ((n + 1) / 10) ++ [Char.ofNat (48 + (n + 1) % 10)]

/-- Model of `strconv.FormatInt(t, 10)` for the non-negative values produced by
`time.Now().UnixNano()` in the representable range. -/
def FormatInt (t : Nat) : String :=
  if t = 0 then "0" else String.mk (toDecimalAux t t)

/-- The nonce of `SendAuthenticatedRequest` (line 352):
`strconv.FormatInt(time.Now().UnixNano(), 10)[0:13]`, the leading 13 characters
of the decimal rendering of the clock reading `t`.  Go faults when the
rendering is shorter than 13 characters (clock readings below `10^12`); the
claims about the nonce are stated under the in-range hypothesis `10^12 ≤ t`. -/
def nonceOf (t : Nat) : String :=
  String.mk ((FormatInt t).data.take 13)

/-! ## Authenticated request executor (`btcmarkets.go` lines 351-392) -/

/-- One HTTP request handed to the transport collaborator `SendHTTPRequest`. -/
structure TransportCall where
  method : String
  url : String
  headers : List (String × String)
  body : Option String

/-- Header lookup in a transport call. -/
def headerVal (tc : TransportCall) (key : String) : Option String :=
  tc.headers.lookup key

/-- The transport call that `SendAuthenticatedRequest` builds at clock reading
`t` (lines 352-375): canonical string `path + "\n" + nonce + "\n" + body` when
a body is present, `path + "\n" + nonce + "\n"` when not; HMAC-SHA512 over it
keyed by the stored (decoded) secret; fixed headers plus api key, nonce
timestamp and base64 signature. -/
def authCall (c : Collab) (b : BTCMarkets) (t : Nat)
    (reqType path : String) (data : Option String) : TransportCall :=
  let nonce := nonceOf t
  let request :=
    match data with
    | some d => path ++ "\n" ++ nonce ++ "\n" ++ d
    | none => path ++ "\n" ++ nonce ++ "\n"
  let hmac := c.getHMAC request b.APISecret
  { method := reqType
    url := BTCMARKETS_API_URL ++ path
    headers :=
      [("Accept", "application/json"),
       ("Accept-Charset", "UTF-8"),
       ("Content-Type", "application/json"),
       ("apikey", b.APIKey),
       ("timestamp", nonce),
       ("signature", c.base64Encode hmac)]
    body := data }

/-- `SendAuthenticatedRequest` (lines 351-392).  `transport` is the
`SendHTTPRequest` collaborator; `decode` is `JSONDecode` into the
caller-supplied result target.  Besides the result, the list of transport
calls actually issued is returned (the function never consults `b.Enabled`:
the single call is issued unconditionally). -/
def SendAuthenticatedRequest {α : Type} (c : Collab)
    (transport : TransportCall → Except String String)
    (decode : String → Except String α) (b : BTCMarkets) (t : Nat)
    (reqType path : String) (data : Option String) :
    Except String α × List TransportCall :=
  let call := authCall c b t reqType path data
  match transport call with
  | .error e => (.error e, [call])
  | .ok resp =>
    match decode resp with
    | .error e => (.error e, [call])
    | .ok v => (.ok v, [call])

/-! ## Configuration (`btcmarkets.go` lines 86-123) -/

/-- `SetDefaults` (lines 86-94). -/
def SetDefaults (b : BTCMarkets) : BTCMarkets :=
  { b with
    Name := "BTC Markets", Enabled := true, Fee := 0.85, Verbose := false,
    Websocket := false, RESTPollingDelay := 10, Ticker := [] }

/-- `SetAPIKeys` (lines 108-123): no-op unless authenticated API support is
configured; stores the key, then base64-decodes the secret — on decode failure
it logs, sets `Enabled := false` and returns, leaving `APISecret` unchanged;
on success it stores the decoded secret. -/
def setAPIKeys (c : Collab) (b : BTCMarkets) (apiKey apiSecret : String) :
    BTCMarkets :=
  if b.AuthenticatedAPISupport = false then b
  else
    let b1 := { b with APIKey := apiKey }
    match c.base64Decode apiSecret with
    | .error _ => { b1 with Enabled := false }
    | .ok result => { b1 with APISecret := result }

/-! ## Market data paths (`btcmarkets.go` lines 157-190) -/

/-- The request path built by `GetTrades` (lines 177-184):
`fmt.Sprintf("/market/%s/AUD/trades?since=%s", ...)` when `len(since) > 0`,
else `fmt.Sprintf("/market/%s/AUD/trades", ...)`. -/
def GetTradesPath (symbol since : String) : String :=
  if 0 < since.length then "/market/" ++ symbol ++ "/AUD/trades?since=" ++ since
  else "/market/" ++ symbol ++ "/AUD/trades"

/-! ## Order management (`btcmarkets.go` lines 192-289) -/

/-- The order payload of `Order` (lines 193-209). -/
structure OrderReq where
  Currency : String
  Instrument : String
  Price : Int
  Volume : Int
  OrderSide : String
  OrderType : String
  ClientRequestId : String

/-- The response envelope decoded by `Order` (lines 216-222). -/
structure OrderResponseEnv where
  Success : Bool
  ErrorCode : Int
  ErrorMessage : String
  ID : Int
  ClientRequestID : String

/-- `Order` (lines 192-235): JSON-encode the order, POST it through the
authenticated executor, reject with the envelope's error message when the
envelope's success flag is false, otherwise return the envelope's id.
`encode` is the `JSONEncode` collaborator and `decode` the `JSONDecode`
collaborator for the response envelope. -/
def Order (c : Collab) (transport : TransportCall → Except String String)
    (encode : OrderReq → Except String String)
    (decode : String → Except String OrderResponseEnv)
    (b : BTCMarkets) (t : Nat) (currency instrument : String)
    (price amount : Int) (orderSide orderType clientReq : String) :
    Except String Int :=
  let order : OrderReq :=
    { Currency := currency, Instrument := instrument, Price := price,
      Volume := amount, OrderSide := orderSide, OrderType := orderType,
      ClientRequestId := clientReq }
  match encode order with
  | .error e => .error e
  | .ok payload =>
    match (SendAuthenticatedRequest c transport decode b t "POST"
        BTCMARKETS_ORDER_CREATE (some payload)).1 with
    | .error e => .error e
    | .ok resp =>
      if !resp.Success then
        .error (b.Name ++ " Unable to place order. Error message: "
          ++ resp.ErrorMessage ++ "\n")
      else .ok resp.ID

/-- The cancel payload of `CancelOrder` (lines 238-242). -/
structure CancelOrderReq where
  OrderIDs : List Int

/-- One per-order sub-response of the cancel envelope (lines 253-258). -/
structure CancelSubResponse where
  Success : Bool
  ErrorCode : Int
  ErrorMessage : String
  ID : Int

/-- The response envelope decoded by `CancelOrder` (lines 249-260). -/
structure CancelResponse where
  Success : Bool
  ErrorCode : Int
  ErrorMessage : String
  Responses : List CancelSubResponse
  ClientRequestID : String

/-- `CancelOrder` (lines 237-289): JSON-encode the batch of ids, POST it
through the authenticated executor; reject with the envelope's error message
when the overall success flag is false; otherwise count the per-order
sub-responses that report success and return `true` exactly when that count
equals the number of requested ids, failing otherwise. -/
def CancelOrder (c : Collab) (transport : TransportCall → Except String String)
    (encode : CancelOrderReq → Except String String)
    (decode : String → Except String CancelResponse)
    (b : BTCMarkets) (t : Nat) (orderID : List Int) : Except String Bool :=
  match encode { OrderIDs := orderID } with
  | .error e => .error e
  | .ok payload =>
    match (SendAuthenticatedRequest c transport decode b t "POST"
        BTCMARKETS_ORDER_CANCEL (some payload)).1 with
    | .error e => .error e
    | .ok resp =>
      if !resp.Success then
        .error (b.Name ++ " Unable to cancel order. Error message: "
          ++ resp.ErrorMessage ++ "\n")
      else
        let ordersToBeCancelled := orderID.length
        let ordersCancelled := resp.Responses.countP (fun y => y.Success)
        if ordersCancelled = ordersToBeCancelled then .ok true
        else .error (b.Name ++ " Unable to cancel order(s).")

/-! ## JSON decoding with and without a result target -/

/-- Modelled from the spec: the JSON collaborator
`decode(bytes, targetShape) -> value | DecodeError` is not under `src/`; it is
modelled in two phases faithful to its contract — a syntax phase `parse` that
rejects malformed input independently of the target, then a binding phase for
the caller's target shape. -/
def JSONDecode {J α : Type} (parse : String → Except String J)
    (bindTarget : J → Except String α) (s : String) : Except String α :=
  match parse s with
  | .error e => .error e
  | .ok v => bindTarget v

/-- Modelled from the spec: the discard target (`result = nil` in `GetOrders`
and `GetOrderDetail`) accepts any parsed value — decoding still occurs, only
the binding is trivial. -/
def discardBind {J : Type} (_ : J) : Except String Unit := .ok ()

/-! ## Ticker poller fan-out task (`btcmarkets.go` lines 138-151) -/

/-- One record handed to the aggregation sink `AddExchangeInfo`. -/
structure SinkRecord where
  exchange : String
  base : String
  quote : String
  price : Float
  volume : Float

/-- The body of one fan-out task of `Run` (lines 138-151), with the ticker
fetch outcome for the task's pair passed in.  On fetch error the task logs and
returns, leaving the shared ticker mapping untouched; on success it writes the
snapshot under the pair's key, converts prices (conversion errors tolerated),
logs, and forwards two records to the aggregation sink using the fixed-width
`currency[0:3]` / `currency[3:]` split. -/
def runTask (b : BTCMarkets) (currency : String)
    (tickerResult : Except String BTCMarketsTicker)
    (convert : Float → String → String → Float) :
    BTCMarkets × List SinkRecord :=
  match tickerResult with
  | .error _ => (b, [])
  | .ok ticker =>
    let lastUSD := convert ticker.LastPrice "AUD" "USD"
    ({ b with Ticker := mapInsert b.Ticker currency ticker },
     [{ exchange := b.Name, base := String.mk (currency.data.take 3),
        quote := String.mk (currency.data.drop 3),
        price := ticker.LastPrice, volume := 0 },
      { exchange := b.Name, base := String.mk (currency.data.take 3),
        quote := "USD", price := lastUSD, volume := 0 }])

/-- The fixed-width currency-pair split used by the fan-out task (lines
149-150): `currency[0:3]` and `currency[3:]`, with Go's slicing fault when the
symbol is too short. -/
def pollerSplit (currency : String) : Option (String × String) :=
  match goSlice currency 0 3, goSlice currency 3 currency.data.length with
  | some base, some quote => some (base, quote)
  | _, _ => none

/-! ## Sample collaborators and client state, used by concrete witnesses -/

/-- A concrete collaborator bundle whose base64 decoder rejects its input,
as the real decoder does on input that is not valid base64. -/
def cBad : Collab :=
  { base64Decode := fun _ => Except.error "illegal base64 data"
    base64Encode := id
    getHMAC := fun m k => m ++ "|" ++ k }

/-- A concrete collaborator bundle whose base64 decoder accepts everything. -/
def cOk : Collab :=
  { base64Decode := fun s => Except.ok s
    base64Encode := id
    getHMAC := fun m k => m ++ "|" ++ k }

/-- A concrete client with authenticated API support configured. -/
def bAuth : BTCMarkets :=
  { Name := "BTC Markets", Enabled := true, Verbose := false,
    Websocket := false, RESTPollingDelay := 10, Fee := 0.85, Ticker := [],
    AuthenticatedAPISupport := true, APIKey := "", APISecret := "",
    BaseCurrencies := [], AvailablePairs := [], EnabledPairs := [] }

/-- A concrete client without authenticated API support. -/
def bNoAuth : BTCMarkets :=
  { bAuth with AuthenticatedAPISupport := false }

/-- A concrete ticker snapshot. -/
def tkSample : BTCMarketsTicker :=
  { BestBID := 100.0, BestAsk := 101.0, LastPrice := 100.5,
    Currency := "AUD", Instrument := "BTC", Timestamp := 1500000000 }

/-- A concrete client whose ticker cache already holds an entry for another
pair. -/
def bWithETH : BTCMarkets :=
  { bAuth with Ticker := [("ETHAUD", tkSample)] }

/-- A concrete cancel envelope: overall success, one sub-response succeeded,
one failed. -/
def respCancelSample : CancelResponse :=
  { Success := true, ErrorCode := 0, ErrorMessage := "",
    Responses :=
      [{ Success := true, ErrorCode := 0, ErrorMessage := "", ID := 1 },
       { Success := false, ErrorCode := 3, ErrorMessage := "order not found", ID := 2 }],
    ClientRequestID := "" }

/-- A concrete order envelope with the success flag false. -/
def respOrderRejected : OrderResponseEnv :=
  { Success := false, ErrorCode := 3, ErrorMessage := "Insufficient funds",
    ID := 0, ClientRequestID := "abc" }

/-- A concrete order envelope with the success flag true. -/
def respOrderAccepted : OrderResponseEnv :=
  { Success := true, ErrorCode := 0, ErrorMessage := "", ID := 100,
    ClientRequestID := "abc" }

/-! ## Helper lemmas -/

theorem sendAuth_trace {α : Type} (c : Collab)
    (transport : TransportCall → Except String String)
    (decode : String → Except String α) (b : BTCMarkets) (t : Nat)
    (reqType path : String) (data : Option String) :
    (SendAuthenticatedRequest c transport decode b t reqType path data).2
      = [authCall c b t reqType path data] := by
  simp only [SendAuthenticatedRequest]
  split
  · rfl
  · split <;> rfl

theorem mapLookup_mapInsert_self {V : Type} (m : List (String × V)) (k : String) (v : V) :
    mapLookup (mapInsert m k v) k = some v := by
  induction m with
  | nil => simp [mapInsert, mapLookup]
  | cons hd tl ih =>
    obtain ⟨k1, v1⟩ := hd
    by_cases h : k1 = k
    · simp [mapInsert, mapLookup, h]
    · simp [mapInsert, mapLookup, h, ih]

theorem mapLookup_mapInsert_ne {V : Type} (m : List (String × V)) (k k2 : String) (v : V)
    (h : k2 ≠ k) :
    mapLookup (mapInsert m k v) k2 = mapLookup m k2 := by
  induction m with
  | nil => simp [mapInsert, mapLookup, Ne.symm h]
  | cons hd tl ih =>
    obtain ⟨k1, v1⟩ := hd
    by_cases h1 : k1 = k
    · subst h1
      simp [mapInsert, mapLookup, Ne.symm h]
    · by_cases h2 : k1 = k2
      · subst h2
        simp [mapInsert, mapLookup, h1]
      · simp [mapInsert, mapLookup, h1, h2, ih]

theorem toDecimalAux_zero (fuel : Nat) : toDecimalAux fuel 0 = [] := by
  cases fuel <;> rfl

theorem toDecimalAux_length : ∀ fuel n : Nat, 0 < n → n ≤ fuel →
    (toDecimalAux fuel n).length = Nat.log 10 n + 1 := by
  intro fuel
  induction fuel with
  | zero => intro n h1 h2; omega
  | succ fuel ih =>
    intro n h1 h2
    obtain ⟨m, rfl⟩ : ∃ m, n = m + 1 := ⟨n - 1, by omega⟩
    simp only [toDecimalAux, List.length_append, List.length_singleton]
    by_cases h10 : m + 1 < 10
    · have hq : (m + 1) / 10 = 0 := Nat.div_eq_of_lt h10
      have hlog : Nat.log 10 (m + 1) = 0 := by
        rw [Nat.log_eq_zero_iff]; left; exact h10
      rw [hq, toDecimalAux_zero, hlog]
      rfl
    · push_neg at h10
      have hd1 : 0 < (m + 1) / 10 := Nat.div_pos h10 (by norm_num)
      have hd2 : (m + 1) / 10 ≤ fuel := by
        have := Nat.div_lt_self (show 0 < m + 1 by omega) (show 1 < 10 by norm_num)
        omega
      have e1 := ih _ hd1 hd2
      have e2 : Nat.log 10 ((m + 1) / 10) = Nat.log 10 (m + 1) - 1 :=
        Nat.log_div_base 10 (m + 1)
      have hlog1 : 1 ≤ Nat.log 10 (m + 1) := by
        rw [← Nat.pow_le_iff_le_log (by norm_num) (by omega)]
        simpa using h10
      omega

theorem toDecimalAux_digits : ∀ (fuel n : Nat) (ch : Char),
    ch ∈ toDecimalAux fuel n → ch.isDigit := by
  intro fuel
  induction fuel with
  | zero => intro n ch h; simp [toDecimalAux] at h
  | succ fuel ih =>
    intro n ch h
    match n with
    | 0 => simp [toDecimalAux] at h
    | m + 1 =>
      simp only [toDecimalAux, List.mem_append, List.mem_singleton] at h
      rcases h with h | h
      · exact ih _ _ h
      · subst h
        have hm : (m + 1) % 10 < 10 := Nat.mod_lt _ (by norm_num)
        generalize hg : (m + 1) % 10 = k at hm
        interval_cases k <;> decide

theorem formatInt_length (t : Nat) (h : 10 ^ 12 ≤ t) :
    13 ≤ (FormatInt t).data.length := by
  have h12 : (1000000000000 : Nat) ≤ t := by
    calc (1000000000000 : Nat) = 10 ^ 12 := by norm_num
    _ ≤ t := h
  have ht : t ≠ 0 := by omega
  simp only [FormatInt, ht, if_false]
  show 13 ≤ (toDecimalAux t t).length
  rw [toDecimalAux_length t t (by omega) le_rfl]
  have hlog : 12 ≤ Nat.log 10 t := by
    rw [← Nat.pow_le_iff_le_log (by norm_num) ht]
    exact h
  omega

/-! ## Claim C10 -/

/-- Claim C10: when `AuthenticatedAPISupport` is false, `SetAPIKeys` returns
immediately with no effect — the whole client state, and in particular
`APIKey`, `APISecret` and `Enabled`, is unchanged for every collaborator
(including one whose base64 decoder rejects the secret, since decoding is
never attempted). -/
theorem c10_setAPIKeys_noop (c : Collab) (b : BTCMarkets) (apiKey apiSecret : String)
    (h : b.AuthenticatedAPISupport = false) :
    setAPIKeys c b apiKey apiSecret = b ∧
    (setAPIKeys c b apiKey apiSecret).APIKey = b.APIKey ∧
    (setAPIKeys c b apiKey apiSecret).APISecret = b.APISecret ∧
    (setAPIKeys c b apiKey apiSecret).Enabled = b.Enabled := by
  have hb : setAPIKeys c b apiKey apiSecret = b := by simp [setAPIKeys, h]
  exact ⟨hb, by rw [hb], by rw [hb], by rw [hb]⟩

/-- Witness for C10: a client without authenticated API support, handed a
secret that the base64 decoder rejects, is left untouched. -/
theorem c10_witness :
    bNoAuth.AuthenticatedAPISupport = false ∧
    setAPIKeys cBad bNoAuth "key" "%%%not-base64%%%" = bNoAuth ∧
    (setAPIKeys cBad bNoAuth "key" "%%%not-base64%%%").Enabled = bNoAuth.Enabled :=
  ⟨rfl, (c10_setAPIKeys_noop cBad bNoAuth "key" "%%%not-base64%%%" rfl).1,
    (c10_setAPIKeys_noop cBad bNoAuth "key" "%%%not-base64%%%" rfl).2.2.2⟩

/-! ## Claim C1 -/

/-- Counterexample to C1 as stated: after a failed secret decode the client is
disabled, yet a subsequent invocation of the authenticated executor still
issues a transport request — the trace of transport calls is not empty,
because `SendAuthenticatedRequest` never consults `Enabled`. -/
theorem c1_counterexample :
    (setAPIKeys cBad bAuth "key" "%%%not-base64%%%").Enabled = false ∧
    (SendAuthenticatedRequest cBad (fun _ => Except.ok "[]")
        (fun _ => Except.ok ()) (setAPIKeys cBad bAuth "key" "%%%not-base64%%%")
        1234567890123456789 "GET" BTCMARKETS_ACCOUNT_BALANCE none).2 ≠ [] := by
  refine ⟨rfl, ?_⟩
  rw [sendAuth_trace]
  simp

/-- Claim C1 (amended): if decoding the configured secret fails during
`SetAPIKeys`, the client is marked disabled (`Enabled` set to false); however,
authenticated operations are not gated on `Enabled`, so a subsequent
invocation of an authenticated operation still issues exactly its transport
request. -/
theorem c1_amended {α : Type} (c : Collab)
    (transport : TransportCall → Except String String)
    (decode : String → Except String α) (b : BTCMarkets)
    (apiKey apiSecret e : String) (t : Nat) (reqType path : String)
    (data : Option String)
    (hauth : b.AuthenticatedAPISupport = true)
    (hdec : c.base64Decode apiSecret = Except.error e) :
    (setAPIKeys c b apiKey apiSecret).Enabled = false ∧
    (SendAuthenticatedRequest c transport decode (setAPIKeys c b apiKey apiSecret)
        t reqType path data).2
      = [authCall c (setAPIKeys c b apiKey apiSecret) t reqType path data] := by
  constructor
  · simp [setAPIKeys, hauth, hdec]
  · exact sendAuth_trace c transport decode _ t reqType path data

/-- Witness for the amended C1 at a concrete client, secret and request. -/
theorem c1_witness :
    bAuth.AuthenticatedAPISupport = true ∧
    cBad.base64Decode "%%%" = Except.error "illegal base64 data" ∧
    (setAPIKeys cBad bAuth "key" "%%%").Enabled = false ∧
    (SendAuthenticatedRequest cBad (fun _ => Except.ok "[]") (fun _ => Except.ok ())
        (setAPIKeys cBad bAuth "key" "%%%") 1700000000000000000 "POST"
        BTCMARKETS_ORDER_OPEN none).2
      = [authCall cBad (setAPIKeys cBad bAuth "key" "%%%") 1700000000000000000 "POST"
          BTCMARKETS_ORDER_OPEN none] :=
  ⟨rfl, rfl,
    (c1_amended cBad (fun _ => Except.ok "[]") (fun _ => Except.ok ()) bAuth
      "key" "%%%" "illegal base64 data" 1700000000000000000 "POST"
      BTCMARKETS_ORDER_OPEN none rfl rfl).1,
    (c1_amended cBad (fun _ => Except.ok "[]") (fun _ => Except.ok ()) bAuth
      "key" "%%%" "illegal base64 data" 1700000000000000000 "POST"
      BTCMARKETS_ORDER_OPEN none rfl rfl).2⟩

/-! ## Claim C2 -/

/-- Claim C2: for every path, clock reading and body, the signature header of
the authenticated request is the base64 encoding of the HMAC-SHA512, keyed by
the stored (decoded) secret, of `path + "\n" + nonce + "\n" + body` when a
body is present and of `path + "\n" + nonce + "\n"` when not; the executor
issues exactly that request.  In particular, with secret `"abc123"`, path
`"/order/create"`, clock reading `1234567890123000000` (nonce
`"1234567890123"`) and body `"\x7b\"x\":1\x7d"`, the signature is the base64
HMAC-SHA512 of `"/order/create\n1234567890123\n\x7b\"x\":1\x7d"` keyed by
`"abc123"`. -/
theorem c2_signature {α : Type} (c : Collab)
    (transport : TransportCall → Except String String)
    (decode : String → Except String α)
    (b : BTCMarkets) (t : Nat) (reqType path : String) (data : Option String) :
    (∀ d : String,
      headerVal (authCall c b t reqType path (some d)) "signature"
        = some (c.base64Encode
            (c.getHMAC (path ++ "\n" ++ nonceOf t ++ "\n" ++ d) b.APISecret))) ∧
    headerVal (authCall c b t reqType path none) "signature"
      = some (c.base64Encode
          (c.getHMAC (path ++ "\n" ++ nonceOf t ++ "\n") b.APISecret)) ∧
    (SendAuthenticatedRequest c transport decode b t reqType path data).2
      = [authCall c b t reqType path data] ∧
    headerVal (authCall c { b with APISecret := "abc123" } 1234567890123000000
        "POST" "/order/create" (some "\x7b\"x\":1\x7d")) "signature"
      = some (c.base64Encode
          (c.getHMAC "/order/create\n1234567890123\n\x7b\"x\":1\x7d" "abc123")) := by
  refine ⟨fun d => rfl, rfl,
    sendAuth_trace c transport decode b t reqType path data, ?_⟩
  rfl

/-! ## Claim C5 -/

/-- Claim C5: for every symbol (which, not containing `'?'`, contributes no
query string of its own), the trades path built with `since = ""` is the bare
trades path, containing no `'?'` and hence no `since` query parameter at all,
while the path built with `since = "12345"` carries exactly `since=12345`;
generally any non-empty `since` is appended as the sole query parameter. -/
theorem c5_getTradesPath (symbol : String) (hq : '?' ∉ symbol.data) :
    GetTradesPath symbol "" = "/market/" ++ symbol ++ "/AUD/trades" ∧
    '?' ∉ (GetTradesPath symbol "").data ∧
    GetTradesPath symbol "12345"
      = "/market/" ++ symbol ++ "/AUD/trades?since=12345" ∧
    ∀ since : String, since ≠ "" →
      GetTradesPath symbol since
        = "/market/" ++ symbol ++ "/AUD/trades?since=" ++ since := by
  have h0 : GetTradesPath symbol "" = "/market/" ++ symbol ++ "/AUD/trades" := rfl
  have h12 : GetTradesPath symbol "12345"
      = "/market/" ++ symbol ++ "/AUD/trades?since=12345" := by
    show "/market/" ++ symbol ++ "/AUD/trades?since=" ++ "12345"
      = "/market/" ++ symbol ++ "/AUD/trades?since=12345"
    apply String.ext
    simp only [String.data_append, List.append_assoc]
    have hlit : ("/AUD/trades?since=" : String).data ++ ("12345" : String).data
        = ("/AUD/trades?since=12345" : String).data := by decide
    rw [hlit]
  refine ⟨h0, ?_, h12, ?_⟩
  · rw [h0]
    intro hmem
    rw [String.data_append, String.data_append] at hmem
    rcases List.mem_append.1 hmem with h | h
    · rcases List.mem_append.1 h with h | h
      · revert h; decide
      · exact hq h
    · revert h; decide
  · intro since hne
    have hpos : 0 < since.length := by
      rcases Nat.eq_zero_or_pos since.length with h | h
      · exfalso
        apply hne
        exact String.ext (List.length_eq_zero.mp (h : since.data.length = 0))
      · exact h
    simp [GetTradesPath, hpos]

/-- Witness for C5 at the concrete symbol `"BTC"` and `since = "9999"`. -/
theorem c5_witness :
    ('?' ∉ "BTC".data) ∧
    GetTradesPath "BTC" "" = "/market/" ++ "BTC" ++ "/AUD/trades" ∧
    '?' ∉ (GetTradesPath "BTC" "").data ∧
    GetTradesPath "BTC" "12345" = "/market/" ++ "BTC" ++ "/AUD/trades?since=12345" ∧
    GetTradesPath "BTC" "9999" = "/market/" ++ "BTC" ++ "/AUD/trades?since=" ++ "9999" :=
  ⟨by decide,
    (c5_getTradesPath "BTC" (by decide)).1,
    (c5_getTradesPath "BTC" (by decide)).2.1,
    (c5_getTradesPath "BTC" (by decide)).2.2.1,
    (c5_getTradesPath "BTC" (by decide)).2.2.2 "9999" (by decide)⟩

/-! ## Claim C9 -/

/-- Claim C9: under the precondition that a pair symbol has exactly 6
characters, the poller's fixed-width split `currency[0:3]` / `currency[3:]`
is in bounds and yields two 3-character strings (the first 3 characters and
the characters from index 3 on); without that precondition, on any symbol
shorter than 3 characters, the slice `currency[0:3]` faults, since no length
validation is performed. -/
theorem c9_pollerSplit (s : String) :
    (s.data.length = 6 →
      pollerSplit s
        = some (String.mk (s.data.take 3), String.mk (s.data.drop 3)) ∧
      (String.mk (s.data.take 3)).data.length = 3 ∧
      (String.mk (s.data.drop 3)).data.length = 3) ∧
    (s.data.length < 3 → goSlice s 0 3 = none ∧ pollerSplit s = none) := by
  constructor
  · intro h6
    have h1 : goSlice s 0 3 = some (String.mk (s.data.take 3)) := by
      simp [goSlice, h6]
    have h2 : goSlice s 3 s.data.length
        = some (String.mk (s.data.drop 3)) := by
      have ht : (s.data.drop 3).take 3 = s.data.drop 3 := by
        apply List.take_of_length_le
        simp [h6]
      have h6l : s.length = 6 := h6
      simp [goSlice, h6, h6l, ht]
    have h2l : goSlice s 3 s.length = some (String.mk (s.data.drop 3)) := h2
    refine ⟨by simp [pollerSplit, h1, h2, h2l], ?_, ?_⟩
    · simp [List.length_take, h6]
    · simp [h6]
  · intro h3
    have h1 : goSlice s 0 3 = none := by
      simp only [goSlice]
      rw [if_neg]
      omega
    refine ⟨h1, ?_⟩
    cases h4 : goSlice s 3 s.data.length with
    | none =>
      have h4l : goSlice s 3 s.length = none := h4
      simp [pollerSplit, h1, h4, h4l]
    | some q =>
      have h4l : goSlice s 3 s.length = some q := h4
      simp [pollerSplit, h1, h4, h4l]

/-- Witness for C9: the split succeeds on the 6-character `"BTCAUD"` and the
slice faults on the 2-character `"BT"`. -/
theorem c9_witness :
    ("BTCAUD".data.length = 6 ∧
      pollerSplit "BTCAUD"
        = some (String.mk ("BTCAUD".data.take 3), String.mk ("BTCAUD".data.drop 3))) ∧
    ("BT".data.length < 3 ∧ goSlice "BT" 0 3 = none ∧ pollerSplit "BT" = none) :=
  ⟨⟨by decide, ((c9_pollerSplit "BTCAUD").1 (by decide)).1⟩,
   ⟨by decide, (c9_pollerSplit "BT").2 (by decide)⟩⟩

/-! ## Claim C6 -/

/-- Claim C6: for any clock reading in the representable range (at least
`10^12` nanoseconds, below `2^63`), the nonce carried in the `timestamp`
header of the authenticated request is the leading 13 characters of the
decimal rendering of the clock reading, is 13 characters long, and consists
of decimal digits only. -/
theorem c6_nonce {α : Type} (c : Collab)
    (transport : TransportCall → Except String String)
    (decode : String → Except String α) (b : BTCMarkets) (t : Nat)
    (reqType path : String) (data : Option String)
    (h1 : 10 ^ 12 ≤ t) (h2 : t < 2 ^ 63) :
    headerVal (authCall c b t reqType path data) "timestamp" = some (nonceOf t) ∧
    (SendAuthenticatedRequest c transport decode b t reqType path data).2
      = [authCall c b t reqType path data] ∧
    (nonceOf t).data = (FormatInt t).data.take 13 ∧
    (nonceOf t).length = 13 ∧
    ∀ ch ∈ (nonceOf t).data, ch.isDigit := by
  refine ⟨rfl, sendAuth_trace c transport decode b t reqType path data, rfl, ?_, ?_⟩
  · show ((FormatInt t).data.take 13).length = 13
    rw [List.length_take]
    have := formatInt_length t h1
    omega
  · intro ch hch
    have hmem : ch ∈ (FormatInt t).data := List.take_subset 13 _ hch
    have ht : t ≠ 0 := by
      have h12 : (1000000000000 : Nat) ≤ t := by
        calc (1000000000000 : Nat) = 10 ^ 12 := by norm_num
        _ ≤ t := h1
      omega
    simp only [FormatInt, ht, if_false] at hmem
    exact toDecimalAux_digits t t ch hmem

/-- Witness for C6 at the concrete clock reading `1700000000000000000`, whose
nonce evaluates to `"1700000000000"`. -/
theorem c6_witness :
    (10 ^ 12 ≤ 1700000000000000000 ∧ (1700000000000000000 : Nat) < 2 ^ 63) ∧
    nonceOf 1700000000000000000 = "1700000000000" ∧
    headerVal (authCall cOk bAuth 1700000000000000000 "GET"
        BTCMARKETS_ACCOUNT_BALANCE none) "timestamp"
      = some (nonceOf 1700000000000000000) ∧
    (nonceOf 1700000000000000000).length = 13 ∧
    ∀ ch ∈ (nonceOf 1700000000000000000).data, ch.isDigit :=
  ⟨⟨by norm_num, by norm_num⟩, by decide,
    (c6_nonce cOk (fun _ => Except.ok "[]") (fun _ => Except.ok ()) bAuth
      1700000000000000000 "GET" BTCMARKETS_ACCOUNT_BALANCE none
      (by norm_num) (by norm_num)).1,
    (c6_nonce cOk (fun _ => Except.ok "[]") (fun _ => Except.ok ()) bAuth
      1700000000000000000 "GET" BTCMARKETS_ACCOUNT_BALANCE none
      (by norm_num) (by norm_num)).2.2.2.1,
    (c6_nonce cOk (fun _ => Except.ok "[]") (fun _ => Except.ok ()) bAuth
      1700000000000000000 "GET" BTCMARKETS_ACCOUNT_BALANCE none
      (by norm_num) (by norm_num)).2.2.2.2⟩

/-! ## Claim C3 -/

/-- Claim C3: for a non-empty batch of order ids, when the decoded cancel
envelope has its overall success flag true but only a strict subset of the
per-order sub-responses (one per requested id) report success, `CancelOrder`
returns the partial-cancel failure, not success; it returns success exactly
when the count of successful sub-responses equals the number of requested
ids. -/
theorem c3_cancelOrder (c : Collab)
    (transport : TransportCall → Except String String)
    (encode : CancelOrderReq → Except String String)
    (decode : String → Except String CancelResponse)
    (b : BTCMarkets) (t : Nat) (orderID : List Int)
    (payload raw : String) (resp : CancelResponse)
    (henc : encode { OrderIDs := orderID } = Except.ok payload)
    (htr : transport (authCall c b t "POST" BTCMARKETS_ORDER_CANCEL (some payload))
      = Except.ok raw)
    (hdec : decode raw = Except.ok resp)
    (hne : orderID ≠ [])
    (hsucc : resp.Success = true) :
    (resp.Responses.length = orderID.length →
      resp.Responses.countP (fun y => y.Success) < resp.Responses.length →
      CancelOrder c transport encode decode b t orderID
        = Except.error (b.Name ++ " Unable to cancel order(s).")) ∧
    (CancelOrder c transport encode decode b t orderID = Except.ok true ↔
      resp.Responses.countP (fun y => y.Success) = orderID.length) := by
  have hexec : (SendAuthenticatedRequest c transport decode b t "POST"
      BTCMARKETS_ORDER_CANCEL (some payload)).1 = Except.ok resp := by
    simp [SendAuthenticatedRequest, htr, hdec]
  constructor
  · intro hlen hlt
    have hne2 : ¬ (resp.Responses.countP (fun y => y.Success) = orderID.length) := by
      omega
    simp [CancelOrder, henc, hexec, hsucc, hne2]
  · by_cases hc : resp.Responses.countP (fun y => y.Success) = orderID.length
    · simp [CancelOrder, henc, hexec, hsucc, hc]
    · simp [CancelOrder, henc, hexec, hsucc, hc]

/-- Witness for C3: two requested ids, an overall-success envelope in which
only one of the two sub-responses succeeded — the batch cancel fails and does
not return success. -/
theorem c3_witness :
    ((fun _ : CancelOrderReq => (Except.ok "payload" : Except String String))
        { OrderIDs := [1, 2] } = Except.ok "payload" ∧
      respCancelSample.Success = true ∧
      respCancelSample.Responses.length = ([1, 2] : List Int).length ∧
      respCancelSample.Responses.countP (fun y => y.Success)
        < respCancelSample.Responses.length) ∧
    CancelOrder cOk (fun _ => Except.ok "raw") (fun _ => Except.ok "payload")
        (fun _ => Except.ok respCancelSample) bAuth 1700000000000000000 [1, 2]
      = Except.error (bAuth.Name ++ " Unable to cancel order(s).") ∧
    ¬ (CancelOrder cOk (fun _ => Except.ok "raw") (fun _ => Except.ok "payload")
        (fun _ => Except.ok respCancelSample) bAuth 1700000000000000000 [1, 2]
      = Except.ok true) := by
  have h := c3_cancelOrder cOk (fun _ => Except.ok "raw")
    (fun _ => Except.ok "payload") (fun _ => Except.ok respCancelSample)
    bAuth 1700000000000000000 [1, 2] "payload" "raw" respCancelSample
    rfl rfl rfl (by decide) rfl
  refine ⟨⟨rfl, rfl, rfl, by decide⟩, h.1 rfl (by decide), ?_⟩
  intro hok
  have hcount := h.2.mp hok
  revert hcount
  decide

/-! ## Claim C4 -/

/-- Claim C4: when transport and decode succeed, an order whose decoded
envelope has success flag false fails with the rejection error carrying the
envelope's error message and returns no id, while an envelope with success
flag true yields the envelope's numeric id. -/
theorem c4_order (c : Collab)
    (transport : TransportCall → Except String String)
    (encode : OrderReq → Except String String)
    (decode : String → Except String OrderResponseEnv)
    (b : BTCMarkets) (t : Nat) (currency instrument : String)
    (price amount : Int) (orderSide orderType clientReq : String)
    (payload raw : String) (resp : OrderResponseEnv)
    (henc : encode
      { Currency := currency, Instrument := instrument, Price := price,
        Volume := amount, OrderSide := orderSide, OrderType := orderType,
        ClientRequestId := clientReq } = Except.ok payload)
    (htr : transport (authCall c b t "POST" BTCMARKETS_ORDER_CREATE (some payload))
      = Except.ok raw)
    (hdec : decode raw = Except.ok resp) :
    (resp.Success = false →
      Order c transport encode decode b t currency instrument price amount
          orderSide orderType clientReq
        = Except.error (b.Name ++ " Unable to place order. Error message: "
            ++ resp.ErrorMessage ++ "\n")) ∧
    (resp.Success = true →
      Order c transport encode decode b t currency instrument price amount
          orderSide orderType clientReq
        = Except.ok resp.ID) := by
  have hexec : (SendAuthenticatedRequest c transport decode b t "POST"
      BTCMARKETS_ORDER_CREATE (some payload)).1 = Except.ok resp := by
    simp [SendAuthenticatedRequest, htr, hdec]
  constructor
  · intro hfail
    simp [Order, henc, hexec, hfail]
  · intro hok
    simp [Order, henc, hexec, hok]

/-- Witness for C4: a rejected envelope produces the rejection error with its
message, an accepted one produces its id. -/
theorem c4_witness :
    (respOrderRejected.Success = false ∧ respOrderAccepted.Success = true) ∧
    Order cOk (fun _ => Except.ok "raw") (fun _ => Except.ok "payload")
        (fun _ => Except.ok respOrderRejected) bAuth 1700000000000000000
        "AUD" "BTC" 10000000000 10000000 "Bid" "Limit" "1"
      = Except.error (bAuth.Name ++ " Unable to place order. Error message: "
          ++ respOrderRejected.ErrorMessage ++ "\n") ∧
    Order cOk (fun _ => Except.ok "raw") (fun _ => Except.ok "payload")
        (fun _ => Except.ok respOrderAccepted) bAuth 1700000000000000000
        "AUD" "BTC" 10000000000 10000000 "Bid" "Limit" "1"
      = Except.ok respOrderAccepted.ID :=
  ⟨⟨rfl, rfl⟩,
    (c4_order cOk (fun _ => Except.ok "raw") (fun _ => Except.ok "payload")
      (fun _ => Except.ok respOrderRejected) bAuth 1700000000000000000
      "AUD" "BTC" 10000000000 10000000 "Bid" "Limit" "1" "payload" "raw"
      respOrderRejected rfl rfl rfl).1 rfl,
    (c4_order cOk (fun _ => Except.ok "raw") (fun _ => Except.ok "payload")
      (fun _ => Except.ok respOrderAccepted) bAuth 1700000000000000000
      "AUD" "BTC" 10000000000 10000000 "Bid" "Limit" "1" "payload" "raw"
      respOrderAccepted rfl rfl rfl).2 rfl⟩

/-! ## Claim C7 -/

/-- Claim C7: when the authenticated executor is invoked with no result
schema (the discard target), JSON decoding of the response body still occurs
and a parse error on malformed input propagates to the caller exactly as it
would with a concrete schema target. -/
theorem c7_nilDecode {J α : Type} (c : Collab) (b : BTCMarkets) (t : Nat)
    (reqType path : String) (data : Option String)
    (parse : String → Except String J) (bindA : J → Except String α)
    (raw e : String) (hparse : parse raw = Except.error e) :
    (SendAuthenticatedRequest c (fun _ => Except.ok raw)
        (JSONDecode parse discardBind) b t reqType path data).1
      = Except.error e ∧
    (SendAuthenticatedRequest c (fun _ => Except.ok raw)
        (JSONDecode parse bindA) b t reqType path data).1
      = Except.error e := by
  constructor <;> simp [SendAuthenticatedRequest, JSONDecode, hparse]

/-- Witness for C7: a parser rejecting the malformed body `"oops"` makes the
executor fail with the same parse error under the discard target and under a
concrete schema target. -/
theorem c7_witness :
    ((fun _ : String => (Except.error "invalid character" : Except String Unit))
        "oops" = Except.error "invalid character") ∧
    (SendAuthenticatedRequest cOk (fun _ => Except.ok "oops")
        (JSONDecode (fun _ : String =>
            (Except.error "invalid character" : Except String Unit))
          discardBind) bAuth 1700000000000000000 "POST" BTCMARKETS_ORDER_OPEN
        none).1 = Except.error "invalid character" ∧
    (SendAuthenticatedRequest cOk (fun _ => Except.ok "oops")
        (JSONDecode (fun _ : String =>
            (Except.error "invalid character" : Except String Unit))
          (fun _ => Except.ok (0 : Int))) bAuth 1700000000000000000 "POST"
        BTCMARKETS_ORDER_OPEN none).1 = Except.error "invalid character" :=
  ⟨rfl,
    (c7_nilDecode cOk bAuth 1700000000000000000 "POST" BTCMARKETS_ORDER_OPEN none
      (fun _ => Except.error "invalid character") (fun _ => Except.ok (0 : Int))
      "oops" "invalid character" rfl).1,
    (c7_nilDecode cOk bAuth 1700000000000000000 "POST" BTCMARKETS_ORDER_OPEN none
      (fun _ => Except.error "invalid character") (fun _ => Except.ok (0 : Int))
      "oops" "invalid character" rfl).2⟩

/-! ## Claim C8 -/

/-- Claim C8: a polling fan-out task whose ticker fetch fails leaves the
shared pair-to-snapshot mapping entirely unchanged; on fetch success the
snapshot is written under that pair's key and the entries for every other
pair are unaffected. -/
theorem c8_runTask (b : BTCMarkets) (currency : String)
    (convert : Float → String → String → Float) :
    (∀ e : String, (runTask b currency (Except.error e) convert).1.Ticker = b.Ticker) ∧
    (∀ ticker : BTCMarketsTicker,
      mapLookup (runTask b currency (Except.ok ticker) convert).1.Ticker currency
        = some ticker ∧
      ∀ c2 : String, c2 ≠ currency →
        mapLookup (runTask b currency (Except.ok ticker) convert).1.Ticker c2
          = mapLookup b.Ticker c2) := by
  refine ⟨fun e => rfl, fun ticker => ⟨?_, fun c2 hc2 => ?_⟩⟩
  · show mapLookup (mapInsert b.Ticker currency ticker) currency = some ticker
    exact mapLookup_mapInsert_self b.Ticker currency ticker
  · show mapLookup (mapInsert b.Ticker currency ticker) c2 = mapLookup b.Ticker c2
    exact mapLookup_mapInsert_ne b.Ticker currency c2 ticker hc2

/-- Witness for C8: with an existing `"ETHAUD"` entry, a failed fetch for
`"BTCAUD"` changes nothing, while a successful one writes `"BTCAUD"` and
leaves `"ETHAUD"` as it was. -/
theorem c8_witness :
    ((runTask bWithETH "BTCAUD" (Except.error "connection refused")
        (fun x _ _ => x)).1.Ticker = bWithETH.Ticker) ∧
    mapLookup (runTask bWithETH "BTCAUD" (Except.ok tkSample)
        (fun x _ _ => x)).1.Ticker "BTCAUD" = some tkSample ∧
    (("ETHAUD" : String) ≠ "BTCAUD" ∧
      mapLookup (runTask bWithETH "BTCAUD" (Except.ok tkSample)
          (fun x _ _ => x)).1.Ticker "ETHAUD"
        = mapLookup bWithETH.Ticker "ETHAUD") :=
  ⟨(c8_runTask bWithETH "BTCAUD" (fun x _ _ => x)).1 "connection refused",
    ((c8_runTask bWithETH "BTCAUD" (fun x _ _ => x)).2 tkSample).1,
    ⟨by decide,
      ((c8_runTask bWithETH "BTCAUD" (fun x _ _ => x)).2 tkSample).2 "ETHAUD"
        (by decide)⟩⟩

end BTCM
